import Mathlib

/-!
Verification of the Bitrix24 candidate-synchronisation scripts
(`bitrix24.py`): a shallow embedding of the CRM client, the spreadsheet
codec and the two pipelines, together with theorems settling the frozen
claims about them.
-/

set_option autoImplicit false

namespace Bitrix24

/-- Model of the JSON values exchanged with the Bitrix24 CRM, and of the
Python values the script manipulates: objects are association lists with
string keys (all keys produced by `response.json()` are strings), `null`
models Python `None` (which is also what `openpyxl` yields for an empty
spreadsheet cell). -/
inductive Json where
  | null : Json
  | str : String → Json
  | num : Int → Json
  | arr : List Json → Json
  | obj : List (String × Json) → Json

/-- Python truthiness of a modelled value: `None`, `""`, `0`, `[]` and
the empty dict are falsy, everything else is truthy.  Used wherever the
script writes `if x:` / `if not x:` / conditional expressions. -/
def truthy : Json → Bool
  | .null => false
  | .str s => !s.isEmpty
  | .num n => n != 0
  | .arr [] => false
  | .arr (_ :: _) => true
  | .obj [] => false
  | .obj (_ :: _) => true

/-- First value bound to key `k` in a modelled Python dict
(`d[k]` / `d.get(k)` / `k in d`). -/
def lookupKey (k : String) : List (String × Json) → Option Json
  | [] => none
  | (k2, v) :: rest => if k2 = k then some v else lookupKey k rest

/-- The possible outcomes of the HTTP GET issued by `get_candidate_data`
(`requests.get` + `response.raise_for_status()` + `response.json()`),
each matching one `except` arm of the function:
`ok body` is a 2xx response whose body decodes to `body`; `badJson` is a
2xx response whose body is not valid JSON (`ValueError` from `.json()`);
the remaining constructors are `requests.exceptions.HTTPError`
(non-2xx status), `ConnectionError`, `Timeout`, any other
`RequestException`, and any other exception. -/
inductive RequestOutcome where
  | ok : Json → RequestOutcome
  | badJson : String → RequestOutcome
  | httpError : String → Nat → RequestOutcome
  | connError : RequestOutcome
  | timeout : RequestOutcome
  | reqError : String → RequestOutcome
  | otherExc : String → RequestOutcome

/-- `get_candidate_data` (bitrix24.py, lines 34-73), as a function of the
underlying request outcome: on a decodable 2xx response it returns the
decoded body unchanged; every failure is caught and converted into a
dict holding the single key `"error"` with a kind-specific message. -/
def get_candidate_data : RequestOutcome → Json
  | .ok body => body
  | .badJson _ => .obj [("error", .str "Error decoding JSON from response.")]
  | .httpError m _ => .obj [("error", .str ("HTTP error: " ++ m))]
  | .connError => .obj [("error", .str "Connection error occurred.")]
  | .timeout => .obj [("error", .str "Request timed out.")]
  | .reqError m => .obj [("error", .str ("Request failed: " ++ m))]
  | .otherExc _ => .obj [("error", .str "An unexpected error occurred.")]

/-- Whether a modelled value is a dict containing the key `"error"`. -/
def hasErrorKey : Json → Bool
  | .obj fs => (lookupKey "error" fs).isSome
  | _ => false

/-! ### The date reformatting done by the spreadsheet encoder

`save_candidate_to_excel` reformats `DATE_CREATE` with
`datetime.strptime(value, "%Y-%m-%dT%H:%M:%S%z").strftime("%d.%m.%Y")`.
The functions below model CPython's `strptime` for exactly that format
string: four year digits, greedy one-or-two-digit numeric fields with
the ranges of CPython's `TimeRE` patterns, a calendar validity check on
the day, and a UTC-offset token that is `Z` or a sign followed by
`HH MM` or `HH:MM` (optionally `:SS` and a 1-6 digit fraction), with
the offset strictly below 24 hours.  The whole string must be
consumed. -/

/-- Numeric value of a decimal digit character, if it is one. -/
def digitVal (c : Char) : Option Nat :=
  if c.isDigit then some (c.toNat - 48) else none

/-- Exactly four digits (the `%Y` pattern). -/
def parse4Digits : List Char → Option (Nat × List Char)
  | a :: b :: c :: d :: rest => do
    let x ← digitVal a
    let y ← digitVal b
    let z ← digitVal c
    let w ← digitVal d
    some (1000 * x + 100 * y + 10 * z + w, rest)
  | _ => none

/-- One- or two-digit numeric field: two digits are consumed when their
value satisfies `two1`, otherwise a single digit satisfying `one1` is
consumed (the greedy alternations of CPython's `%m`/`%d`/`%H`/`%M`/`%S`
patterns). -/
def parse2or1 (two1 one1 : Nat → Bool) : List Char → Option (Nat × List Char)
  | a :: b :: rest =>
    match digitVal a, digitVal b with
    | some x, some y =>
      if two1 (10 * x + y) then some (10 * x + y, rest)
      else if one1 x then some (x, b :: rest) else none
    | some x, none => if one1 x then some (x, b :: rest) else none
    | none, _ => none
  | [a] =>
    match digitVal a with
    | some x => if one1 x then some (x, []) else none
    | none => none
  | [] => none

/-- A required literal character. -/
def expectChar (c : Char) : List Char → Option (List Char)
  | x :: rest => if x = c then some rest else none
  | [] => none

/-- The literal `T` of the format (matched case-insensitively, since
CPython compiles format patterns with `IGNORECASE`). -/
def expectT : List Char → Option (List Char)
  | 'T' :: rest => some rest
  | 't' :: rest => some rest
  | _ => none

/-- Consume up to `n` leading digits. -/
def dropDigitsUpTo : Nat → List Char → List Char
  | 0, cs => cs
  | n + 1, c :: cs => if (digitVal c).isSome then dropDigitsUpTo n cs else c :: cs
  | _ + 1, [] => []

/-- Optional fractional-seconds part of the offset: a dot followed by
one to six digits. -/
def parseFrac : List Char → Option (List Char)
  | '.' :: d1 :: rest =>
    if (digitVal d1).isSome then some (dropDigitsUpTo 5 rest) else none
  | '.' :: [] => none
  | cs => some cs

/-- Optional `:SS` seconds group of the offset (first seconds digit at
most 5, as in the `[0-5]\d` pattern), possibly followed by a
fraction. -/
def parseOffsetSeconds : List Char → Option (List Char)
  | ':' :: s1 :: s2 :: rest => do
    let x ← digitVal s1
    let _ ← digitVal s2
    if x ≤ 5 then parseFrac rest else none
  | ':' :: _ => none
  | cs => some cs

/-- The `%z` token: `Z`, or a sign, two hour digits, an optional colon,
two minute digits (first at most 5), and an optional seconds group; the
offset must be strictly below 24 hours (`datetime.timezone` rejects
anything larger). -/
def parseOffset : List Char → Option (List Char)
  | 'Z' :: rest => some rest
  | c :: h1 :: h2 :: rest =>
    if c = '+' ∨ c = '-' then do
      let a ← digitVal h1
      let b ← digitVal h2
      let afterColon := match rest with
        | ':' :: t => t
        | t => t
      match afterColon with
      | m1 :: m2 :: rest2 => do
        let x ← digitVal m1
        let _ ← digitVal m2
        if x ≤ 5 ∧ 10 * a + b ≤ 23 then parseOffsetSeconds rest2 else none
      | _ => none
    else none
  | _ => none

/-- Whether year `y` is a Gregorian leap year. -/
def isLeap (y : Nat) : Bool :=
  (y % 4 == 0 && y % 100 != 0) || y % 400 == 0

/-- Number of days in month `mo` of year `y`. -/
def daysInMonth (y mo : Nat) : Nat :=
  if mo = 2 then (if isLeap y then 29 else 28)
  else if mo = 4 ∨ mo = 6 ∨ mo = 9 ∨ mo = 11 then 30
  else 31

/-- `strptime(s, "%Y-%m-%dT%H:%M:%S%z")`, reduced to the day, month and
year it yields (the only components `strftime("%d.%m.%Y")` uses);
`none` models the `ValueError` raised on a string that does not match
the format or does not denote a valid date. -/
def parseDateCreate (s : String) : Option (Nat × Nat × Nat) := do
  let cs := s.toList
  let (y, r1) ← parse4Digits cs
  let r2 ← expectChar '-' r1
  let (mo, r3) ← parse2or1 (fun v => 1 ≤ v && v ≤ 12) (fun v => 1 ≤ v && v ≤ 9) r2
  let r4 ← expectChar '-' r3
  let (d, r5) ← parse2or1 (fun v => 1 ≤ v && v ≤ 31) (fun v => 1 ≤ v && v ≤ 9) r4
  let r6 ← expectT r5
  let (_, r7) ← parse2or1 (fun v => v ≤ 23) (fun _ => true) r6
  let r8 ← expectChar ':' r7
  let (_, r9) ← parse2or1 (fun v => v ≤ 59) (fun _ => true) r8
  let r10 ← expectChar ':' r9
  let (_, r11) ← parse2or1 (fun v => v ≤ 61) (fun _ => true) r10
  let r12 ← parseOffset r11
  if r12 = [] ∧ 1 ≤ y ∧ 1 ≤ d ∧ d ≤ daysInMonth y mo then some (d, mo, y)
  else none

/-- Zero-padded two-digit rendering (`%d` and `%m` of `strftime`). -/
def pad2 (n : Nat) : String :=
  if n < 10 then "0" ++ toString n else toString n

/-- `strftime("%d.%m.%Y")` on the parsed date. -/
def formatDayMonthYear (d mo y : Nat) : String :=
  pad2 d ++ "." ++ pad2 mo ++ "." ++ toString y

/-! ### The spreadsheet encoder `save_candidate_to_excel` -/

/-- Outcome of `save_candidate_to_excel` (bitrix24.py, lines 75-137):
`noData` is the early return "No candidate data to save." when the
payload has no `result` key; `saved row` means the workbook was written
with `row` as its single data row; `valueError` is the
"Error: Problem with data values." return (a `ValueError`, e.g. a
malformed `DATE_CREATE`); `otherError` covers the generic exception
handler's "Failed to save candidate data" return. -/
inductive SaveOutcome where
  | noData : SaveOutcome
  | saved : List Json → SaveOutcome
  | valueError : SaveOutcome
  | otherError : SaveOutcome

/-- The phone/email cell: `lst[0]["VALUE"] if lst else "N/A"`.  A falsy
value yields the marker; a truthy list whose first element is a dict
with a `VALUE` key yields that value; every other truthy value makes
the subscripting raise (`TypeError`/`KeyError`), modelled as `none`. -/
def contactCell (l : Json) : Option Json :=
  if truthy l = false then some (.str "N/A")
  else
    match l with
    | .arr (.obj fs :: _) => lookupKey "VALUE" fs
    | _ => none

/-- Values `openpyxl` accepts as cell contents; assigning a list or a
dict to a cell raises `ValueError` ("Cannot convert to Excel"). -/
def excelCellOk : Json → Bool
  | .null => true
  | .str _ => true
  | .num _ => true
  | .arr _ => false
  | .obj _ => false

/-- The body of `save_candidate_to_excel` once the `result` object `rf`
is in hand (lines 108-127), with the cells written in source order and
the first failing step deciding the outcome.  The date cell (line 121)
is `"N/A"` when `DATE_CREATE` is absent, the reformatted date when the
value is a string in the expected format, a `ValueError` on a
malformed string, and a `TypeError` (generic handler) on a non-string
value. -/
def saveResultObj (rf : List (String × Json)) : SaveOutcome :=
  let idv := (lookupKey "ID" rf).getD (.str "N/A")
  let namev := (lookupKey "NAME" rf).getD (.str "N/A")
  let lastv := (lookupKey "LAST_NAME" rf).getD (.str "N/A")
  if excelCellOk idv = false then .valueError
  else if excelCellOk namev = false then .valueError
  else if excelCellOk lastv = false then .valueError
  else
    match contactCell ((lookupKey "PHONE" rf).getD (.arr [])) with
    | none => .otherError
    | some pc =>
      if excelCellOk pc = false then .valueError
      else
        match contactCell ((lookupKey "EMAIL" rf).getD (.arr [])) with
        | none => .otherError
        | some ec =>
          if excelCellOk ec = false then .valueError
          else
            match lookupKey "DATE_CREATE" rf with
            | none => .saved [idv, namev, lastv, pc, ec, .str "N/A"]
            | some (.str s) =>
              match parseDateCreate s with
              | some (d, mo, y) =>
                .saved [idv, namev, lastv, pc, ec, .str (formatDayMonthYear d mo y)]
              | none => .valueError
            | some _ => .otherError

/-- Whether character list `cs` starts with `pat`. -/
def leadsWith : List Char → List Char → Bool
  | [], _ => true
  | _ :: _, [] => false
  | p :: ps, c :: cs => p == c && leadsWith ps cs

/-- Whether `pat` occurs as a contiguous run inside the list. -/
def hasSub (pat : List Char) : List Char → Bool
  | [] => pat.isEmpty
  | c :: cs => leadsWith pat (c :: cs) || hasSub pat cs

/-- Substring test, modelling Python's `in` on strings. -/
def strContains (s pat : String) : Bool :=
  hasSub pat.toList s.toList

/-- Membership of the string `"result"` in a modelled Python list
(`"result" in lst`). -/
def listContainsResultStr : List Json → Bool
  | [] => false
  | .str s :: rest => if s = "result" then true else listContainsResultStr rest
  | _ :: rest => listContainsResultStr rest

/-- `save_candidate_to_excel` (bitrix24.py, lines 75-137) on the value
returned by `get_candidate_data`.  On a dict without a `result` key it
returns the no-data message without touching any file; the `result`
value must itself be a dict (otherwise `result.get` raises, generic
handler); non-dict payloads make the `"result" in candidate_data`
membership test or the subsequent subscripting raise. -/
def save_candidate_to_excel : Json → SaveOutcome
  | .null => .otherError
  | .num _ => .otherError
  | .str s => if strContains s "result" then .otherError else .noData
  | .arr xs => if listContainsResultStr xs then .otherError else .noData
  | .obj fs =>
    match lookupKey "result" fs with
    | none => .noData
    | some (.obj rf) => saveResultObj rf
    | some _ => .otherError

/-! ### The spreadsheet decoder `read_from_excel` -/

/-- Outcome of `openpyxl.load_workbook` + `wb.active` in
`read_from_excel`: `ok rows` is the list of rows of the active sheet
(as tuples of cell values, headers included); the other constructors
are the `FileNotFoundError`, `InvalidFileException` and generic
exception handlers. -/
inductive LoadOutcome where
  | ok : List (List Json) → LoadOutcome
  | fileNotFound : LoadOutcome
  | invalidFile : LoadOutcome
  | otherExc : LoadOutcome

/-- The dict built from one data row (bitrix24.py, lines 248-254): the
first five cells, positionally. -/
def rowToItem (row : List Json) : List (String × Json) :=
  [("TITLE", row.getD 0 .null), ("NAME", row.getD 1 .null),
   ("LAST_NAME", row.getD 2 .null), ("PHONE", row.getD 3 .null),
   ("EMAIL", row.getD 4 .null)]

/-- The row loop of `read_from_excel` (lines 244-254): a row with fewer
than five cells is skipped with a warning (`continue`), every other row
is appended. -/
def rowLoop : List (List Json) → List (List (String × Json))
  | [] => []
  | row :: rest =>
    if row.length < 5 then rowLoop rest
    else rowToItem row :: rowLoop rest

/-- `read_from_excel` (bitrix24.py, lines 229-265): skip the header
row, run the row loop; every exception handler returns the empty
list. -/
def read_from_excel : LoadOutcome → List (List (String × Json))
  | .ok rows => rowLoop (rows.drop 1)
  | .fileNotFound => []
  | .invalidFile => []
  | .otherExc => []

/-! ### The import pipeline `create_smart_process` -/

/-- The `fields` object of one `crm.lead.add` request (bitrix24.py,
lines 286-294). -/
structure LeadFields where
  TITLE : Json
  NAME : Json
  LAST_NAME : Json
  PHONE : List Json
  EMAIL : List Json

/-- Building the lead payload for one item (lines 286-294): `NAME`
falls back to the placeholder `"Empty name"` when falsy; a truthy
`PHONE`/`EMAIL` becomes a one-element list of a `HOME`-typed contact
dict, a falsy one becomes the empty list.  The dict accesses
`item["NAME"]`, `item["PHONE"]`, `item["EMAIL"]` are outside the `try`
block, so a missing key raises an uncaught `KeyError`, modelled as
`none`. -/
def lead_payload (item : List (String × Json)) : Option LeadFields :=
  match lookupKey "TITLE" item, lookupKey "NAME" item, lookupKey "LAST_NAME" item,
      lookupKey "PHONE" item, lookupKey "EMAIL" item with
  | some t, some n, some l, some p, some e =>
    some { TITLE := t,
           NAME := if truthy n then n else .str "Empty name",
           LAST_NAME := l,
           PHONE := if truthy p then [.obj [("VALUE", p), ("VALUE_TYPE", .str "HOME")]] else [],
           EMAIL := if truthy e then [.obj [("VALUE", e), ("VALUE_TYPE", .str "HOME")]] else [] }
  | _, _, _, _, _ => none

/-- Outcome of one `requests.post` in the import loop, one constructor
per `except` arm of lines 296-306. -/
inductive CallOutcome where
  | success : CallOutcome
  | httpError : CallOutcome
  | reqError : CallOutcome
  | otherExc : CallOutcome

/-- The `for item in data` loop of `create_smart_process` (lines
281-306), returning the sequence of lead-creation payloads actually
sent.  An item without both the `TITLE` and `LAST_NAME` keys is skipped
(`continue`); otherwise the payload is built (an uncaught `KeyError`
there, modelled by `none`, aborts the whole loop) and the request is
issued; each per-call outcome, successful or not, is caught and logged
and the loop moves on.  `outs` supplies the outcome of each issued
call in order. -/
def smartLoop : List (List (String × Json)) → List CallOutcome → Option (List LeadFields)
  | [], _ => some []
  | item :: rest, outs =>
    if ((lookupKey "TITLE" item).isSome && (lookupKey "LAST_NAME" item).isSome) = true then
      match lead_payload item with
      | none => none
      | some p =>
        match outs.headD .success with
        | .success => (smartLoop rest outs.tail).map (fun ps => p :: ps)
        | .httpError => (smartLoop rest outs.tail).map (fun ps => p :: ps)
        | .reqError => (smartLoop rest outs.tail).map (fun ps => p :: ps)
        | .otherExc => (smartLoop rest outs.tail).map (fun ps => p :: ps)
    else smartLoop rest outs

/-- `create_smart_process` (bitrix24.py, lines 267-306): an empty batch
returns immediately with no request; otherwise the loop runs over every
item. -/
def create_smart_process (data : List (List (String × Json)))
    (outs : List CallOutcome) : Option (List LeadFields) :=
  if data.isEmpty then some []
  else smartLoop data outs

/-! ### The user-field creation payload of `upload_file_to_lead` -/

/-- The `fields` object sent by `upload_file_to_lead` (bitrix24.py,
lines 152-166). -/
structure UserFieldProps where
  FIELD_NAME : String
  EDIT_FORM_LABEL : String
  LIST_COLUMN_LABEL : String
  USER_TYPE_ID : String
  MULTIPLE : String
  MANDATORY : String
  SHOW_FILTER : String
  SHOW_IN_LIST : String
  IS_SEARCHABLE : String
  SORT : Int
  XML_ID : String

/-- `file_name.split("_")[0]`: the text before the first underscore
(or the whole name when it has no underscore). -/
def firstUnderscoreTok (file_name : String) : String :=
  String.mk (file_name.toList.takeWhile (fun c => c != '_'))

/-- The payload built by `upload_file_to_lead` from the supplied file
name: every property is fixed except the two labels, which embed the
text before the file name's first underscore. -/
def upload_file_to_lead_payload (file_name : String) : UserFieldProps :=
  { FIELD_NAME := "LINK_TO_CANDIDATS",
    EDIT_FORM_LABEL := "Ссылка на файл " ++ firstUnderscoreTok file_name,
    LIST_COLUMN_LABEL := "Ссылка на файл \x27" ++ firstUnderscoreTok file_name ++ "\x27",
    USER_TYPE_ID := "file",
    MULTIPLE := "N",
    MANDATORY := "N",
    SHOW_FILTER := "N",
    SHOW_IN_LIST := "Y",
    IS_SEARCHABLE := "N",
    SORT := 100,
    XML_ID := "LINK_TO_CANDIDATE_FILE" }

/-! ### The export pipeline `main_candidate_data` -/

/-- Externally visible steps of one export run: a spreadsheet file
written (with its data row), a `crm.lead.userfield.add` request (a CRM
field mutation), and a `crm.lead.update` request attaching the link. -/
inductive ExportEvent where
  | fileWrite : List Json → ExportEvent
  | fieldCreateRequest : UserFieldProps → ExportEvent
  | attachRequest : Int → String → ExportEvent

/-- The file name hard-coded in `main_candidate_data` (line 325). -/
def exportFileName : String := "candidate_4_20241108_1700.xlsx"

/-- The encoder step of the pipeline (lines 319-322): the fetched dict
is truthy-tested and passed to the encoder; a file-write event occurs
exactly when the encoder reaches `workbook.save`. -/
def saveEvents (candidate_data : Json) : List ExportEvent :=
  if truthy candidate_data then
    match save_candidate_to_excel candidate_data with
    | .saved row => [ExportEvent.fileWrite row]
    | _ => []
  else []

/-- The attach step of the pipeline (lines 326-328): `save_link_to_file`
is called exactly when the field id returned by `upload_file_to_lead`
is truthy (`None` and `0` are falsy). -/
def attachEvents (fieldId : Option Int) : List ExportEvent :=
  match fieldId with
  | some fid => if fid != 0 then [ExportEvent.attachRequest fid exportFileName] else []
  | none => []

/-- `main_candidate_data` (bitrix24.py, lines 309-328) as the sequence
of export events it performs, given the fetch outcome and the field id
returned by `upload_file_to_lead` (`none` models its `None` error
returns).  The fetch and encode steps run first; then
`upload_file_to_lead` is called unconditionally (line 325, with the
hard-coded file name); then the attach step. -/
def main_candidate_data (fetch : RequestOutcome) (fieldId : Option Int) :
    List ExportEvent :=
  saveEvents (get_candidate_data fetch) ++
    [ExportEvent.fieldCreateRequest (upload_file_to_lead_payload exportFileName)] ++
    attachEvents fieldId

/-- Whether an export event writes a spreadsheet file. -/
def isFileWrite : ExportEvent → Bool
  | .fileWrite _ => true
  | _ => false

/-- Whether an export event is a CRM mutation (user-field creation or
link attach). -/
def isCrmMutation : ExportEvent → Bool
  | .fileWrite _ => false
  | .fieldCreateRequest _ => true
  | .attachRequest _ _ => true

/-- Whether the fetch step failed (any outcome but a decodable 2xx
response). -/
def fetchFailed : RequestOutcome → Bool
  | .ok _ => false
  | _ => true

/-- Whether the encoder failed to produce a file (any outcome other
than a written workbook). -/
def saveFails : SaveOutcome → Bool
  | .saved _ => false
  | _ => true

/-- Whether an import item carries all five keys a decoded spreadsheet
row has. -/
def hasAllKeys (item : List (String × Json)) : Bool :=
  (lookupKey "TITLE" item).isSome && (lookupKey "NAME" item).isSome &&
    (lookupKey "LAST_NAME" item).isSome && (lookupKey "PHONE" item).isSome &&
    (lookupKey "EMAIL" item).isSome

/-- The `result` object of the specification's export scenario: lead
123, Ivan Ivanov, one phone, one email, created 2023-10-01. -/
def scenarioResult : List (String × Json) :=
  [("ID", .num 123), ("NAME", .str "Ivan"), ("LAST_NAME", .str "Ivanov"),
   ("PHONE", .arr [.obj [("VALUE", .str "+7999...")]]),
   ("EMAIL", .arr [.obj [("VALUE", .str "ivanov@example.com")]]),
   ("DATE_CREATE", .str "2023-10-01T12:00:00+0300")]

/-- The data row the scenario must encode to. -/
def scenarioRow : List Json :=
  [.num 123, .str "Ivan", .str "Ivanov", .str "+7999...",
   .str "ivanov@example.com", .str "01.10.2023"]

/-- Two fully-valid decoded import rows, as in the specification's
two-row import scenario. -/
def demoRows : List (List (String × Json)) :=
  [rowToItem [.str "Title1", .str "Name1", .str "LastName1", .str "Phone1",
     .str "email1@example.com"],
   rowToItem [.str "Title2", .str "Name2", .str "LastName2", .str "Phone2",
     .str "email2@example.com"]]

/-- A decoded row whose title cell is empty: five present cells, the
first `None` (an empty spreadsheet cell). -/
def emptyTitleItem : List (String × Json) :=
  rowToItem [.null, .str "Name1", .str "LastName1", .null, .null]

/-! ## Helper lemmas -/

/-- A truthy contact list headed by a dict yields that dict's `VALUE`
entry. -/
theorem contactCell_first_value (ps : List (String × Json)) (rest : List Json) :
    contactCell (.arr (.obj ps :: rest)) = lookupKey "VALUE" ps := by
  simp [contactCell, truthy]

/-- An empty contact list yields the `"N/A"` marker. -/
theorem contactCell_empty : contactCell (.arr []) = some (.str "N/A") := rfl

/-- The row loop is the order-preserving filter-map over the rows. -/
theorem rowLoop_eq_filter_map (rows : List (List Json)) :
    rowLoop rows = (rows.filter (fun row => decide (5 ≤ row.length))).map rowToItem := by
  induction rows with
  | nil => rfl
  | cons row rest ih =>
    by_cases h : row.length < 5
    · have h5 : ¬ 5 ≤ row.length := by omega
      simp [rowLoop, h, h5, ih]
    · have h5 : 5 ≤ row.length := by omega
      simp [rowLoop, h, h5, ih]

/-- Skipping a short row leaves the rest of the row loop unchanged. -/
theorem rowLoop_skip_short {short : List Json} (h : short.length < 5)
    (pre post : List (List Json)) :
    rowLoop (pre ++ short :: post) = rowLoop (pre ++ post) := by
  have h5 : ¬ 5 ≤ short.length := by omega
  simp [rowLoop_eq_filter_map, List.filter_append, List.filter_cons, h5]

/-! ## The claims -/

/-- Claim C9: `get_candidate_data` is total over its failure modes: for
every underlying request outcome other than success it returns a
dictionary containing the key `"error"` rather than propagating an
exception, and on success it returns the decoded response body
unchanged. -/
theorem c9_get_candidate_data_total :
    (∀ body, get_candidate_data (.ok body) = body) ∧
    (∀ t, hasErrorKey (get_candidate_data (.badJson t)) = true) ∧
    (∀ m s, hasErrorKey (get_candidate_data (.httpError m s)) = true) ∧
    hasErrorKey (get_candidate_data .connError) = true ∧
    hasErrorKey (get_candidate_data .timeout) = true ∧
    (∀ m, hasErrorKey (get_candidate_data (.reqError m)) = true) ∧
    (∀ m, hasErrorKey (get_candidate_data (.otherExc m)) = true) :=
  ⟨fun _ => rfl, fun _ => rfl, fun _ _ => rfl, rfl, rfl, fun _ => rfl,
    fun _ => rfl⟩

/-- Claim C8: for every supplied file name, `upload_file_to_lead`
builds a creation payload with a fixed shape (file-typed, not
multiple, not mandatory, shown in list, fixed sort value, fixed
external identifier) whose edit/list label text is derived from the
text before the first underscore of the file name; in particular, from
`candidate_4_20241108_1700.xlsx` the label text is derived from the
token `candidate`. -/
theorem c8_user_field_payload_shape :
    (∀ fn, (upload_file_to_lead_payload fn).FIELD_NAME = "LINK_TO_CANDIDATS" ∧
      (upload_file_to_lead_payload fn).USER_TYPE_ID = "file" ∧
      (upload_file_to_lead_payload fn).MULTIPLE = "N" ∧
      (upload_file_to_lead_payload fn).MANDATORY = "N" ∧
      (upload_file_to_lead_payload fn).SHOW_IN_LIST = "Y" ∧
      (upload_file_to_lead_payload fn).SORT = 100 ∧
      (upload_file_to_lead_payload fn).XML_ID = "LINK_TO_CANDIDATE_FILE" ∧
      (upload_file_to_lead_payload fn).EDIT_FORM_LABEL =
        "Ссылка на файл " ++ firstUnderscoreTok fn ∧
      (upload_file_to_lead_payload fn).LIST_COLUMN_LABEL =
        "Ссылка на файл \x27" ++ firstUnderscoreTok fn ++ "\x27") ∧
    firstUnderscoreTok "candidate_4_20241108_1700.xlsx" = "candidate" ∧
    (upload_file_to_lead_payload "candidate_4_20241108_1700.xlsx").EDIT_FORM_LABEL =
      "Ссылка на файл candidate" := by
  refine ⟨fun fn => ⟨rfl, rfl, rfl, rfl, rfl, rfl, rfl, rfl, rfl⟩, by decide, by decide⟩

/-- Claim C3: for every input spreadsheet and every non-header row with
fewer than 5 populated columns, `read_from_excel` skips that row, does
not include it in the returned sequence, and continues scanning and
decoding all subsequent rows: removing the short row from the input
does not change the output. -/
theorem c3_decode_skips_short_rows (hdr short : List Json)
    (pre post : List (List Json)) (h : short.length < 5) :
    read_from_excel (.ok (hdr :: (pre ++ short :: post))) =
      read_from_excel (.ok (hdr :: (pre ++ post))) := by
  show rowLoop (pre ++ short :: post) = rowLoop (pre ++ post)
  exact rowLoop_skip_short h pre post

/-- Witness for C3 at a concrete spreadsheet: a one-cell row between a
header and a full row is skipped. -/
theorem c3_decode_skips_short_rows_witness :
    [Json.str "only"].length < 5 ∧
    read_from_excel (.ok ([Json.str "h"] :: ([] ++ [Json.str "only"] ::
        [[Json.str "t", Json.str "n", Json.str "l", Json.str "p", Json.str "e"]]))) =
      read_from_excel (.ok ([Json.str "h"] :: ([] ++
        [[Json.str "t", Json.str "n", Json.str "l", Json.str "p", Json.str "e"]]))) :=
  ⟨by decide, c3_decode_skips_short_rows _ _ _ _ (by decide)⟩

/-- Claim C10: `read_from_excel` never raises to its caller: on a
missing file, an invalid file format, or any other exception it
returns the empty list; and on success the returned sequence of row
dictionaries is the order-preserving image of the source rows (a
filter of the rows after the header, mapped in place). -/
theorem c10_decode_total_and_ordered :
    read_from_excel .fileNotFound = [] ∧
    read_from_excel .invalidFile = [] ∧
    read_from_excel .otherExc = [] ∧
    (∀ rows : List (List Json), read_from_excel (.ok rows) =
      ((rows.drop 1).filter (fun row => decide (5 ≤ row.length))).map rowToItem) ∧
    (∀ rows : List (List Json), List.Sublist
      ((rows.drop 1).filter (fun row => decide (5 ≤ row.length))) (rows.drop 1)) := by
  refine ⟨rfl, rfl, rfl, fun rows => rowLoop_eq_filter_map _, fun rows => List.filter_sublist _⟩

/-- Claim C2 counterexample: a decoded import row whose title cell is
empty (`None`) is a decoded row "missing title", yet
`create_smart_process` does issue a lead-creation call for it (with a
null `TITLE`), because the guard only tests key presence and decoded
rows always carry all five keys. -/
theorem c2_counterexample :
    read_from_excel (.ok [[.str "h1", .str "h2", .str "h3", .str "h4", .str "h5"],
      [.null, .str "Name1", .str "LastName1", .null, .null]]) = [emptyTitleItem] ∧
    lookupKey "TITLE" emptyTitleItem = some .null ∧
    create_smart_process [emptyTitleItem] [] =
      some [{ TITLE := Json.null, NAME := .str "Name1", LAST_NAME := .str "LastName1",
              PHONE := [], EMAIL := [] }] :=
  ⟨rfl, rfl, rfl⟩

/-- Claim C2 (amended): `create_smart_process` skips a row, issuing no
lead-creation call for it and proceeding with the remaining rows,
exactly when the row dict lacks the `TITLE` or the `LAST_NAME` key; a
decoded row always carries both keys (possibly with null values), so a
decoded row with an empty title or last-name cell is not skipped. -/
theorem c2_amended_skip_only_absent_keys (item : List (String × Json))
    (rest : List (List (String × Json))) (outs : List CallOutcome)
    (h : lookupKey "TITLE" item = none ∨ lookupKey "LAST_NAME" item = none) :
    smartLoop (item :: rest) outs = smartLoop rest outs ∧
    create_smart_process (item :: rest) outs = smartLoop rest outs := by
  have hguard :
      ((lookupKey "TITLE" item).isSome && (lookupKey "LAST_NAME" item).isSome) = false := by
    rcases h with h | h <;> simp [h]
  have h1 : smartLoop (item :: rest) outs = smartLoop rest outs := by
    simp [smartLoop, hguard]
  exact ⟨h1, by simpa [create_smart_process] using h1⟩

/-- Witness for the amended C2: a one-entry dict without the required
keys is skipped and the loop proceeds. -/
theorem c2_amended_skip_only_absent_keys_witness :
    (lookupKey "TITLE" [("NAME", Json.null)] = none ∨
      lookupKey "LAST_NAME" [("NAME", Json.null)] = none) ∧
    smartLoop [[("NAME", Json.null)]] [] = smartLoop [] [] ∧
    create_smart_process [[("NAME", Json.null)]] [] = smartLoop [] [] :=
  ⟨Or.inl rfl, c2_amended_skip_only_absent_keys _ [] [] (Or.inl rfl)⟩

/-- An item carrying all five keys always yields a lead payload. -/
theorem lead_payload_of_keys (item : List (String × Json)) (t n l p e : Json)
    (ht : lookupKey "TITLE" item = some t) (hn : lookupKey "NAME" item = some n)
    (hl : lookupKey "LAST_NAME" item = some l) (hp : lookupKey "PHONE" item = some p)
    (he : lookupKey "EMAIL" item = some e) :
    lead_payload item =
      some { TITLE := t,
             NAME := if truthy n then n else .str "Empty name",
             LAST_NAME := l,
             PHONE := if truthy p then [.obj [("VALUE", p), ("VALUE_TYPE", .str "HOME")]]
               else [],
             EMAIL := if truthy e then [.obj [("VALUE", e), ("VALUE_TYPE", .str "HOME")]]
               else [] } := by
  simp [lead_payload, ht, hn, hl, hp, he]

/-- The import loop sends the same requests whatever the per-call
outcomes are. -/
theorem smartLoop_outcome_independent :
    ∀ (data : List (List (String × Json))) (outs outs2 : List CallOutcome),
      smartLoop data outs = smartLoop data outs2 := by
  intro data
  induction data with
  | nil => intro outs outs2; rfl
  | cons item rest ih =>
    intro outs outs2
    by_cases hguard :
        ((lookupKey "TITLE" item).isSome && (lookupKey "LAST_NAME" item).isSome) = true
    · rcases hp : lead_payload item with _ | p
      · simp [smartLoop, hguard, hp]
      · simp only [smartLoop, hguard, if_true, hp]
        cases outs.headD .success <;> cases outs2.headD .success <;>
          rw [ih outs.tail outs2.tail]
    · simp only [smartLoop, if_neg hguard]
      exact ih outs outs2

/-- Over a batch of items that all carry the five decoded keys,
the import loop issues exactly one request per item. -/
theorem smartLoop_all_keys_length :
    ∀ (data : List (List (String × Json))) (outs : List CallOutcome),
      (∀ item ∈ data, hasAllKeys item = true) →
      ∃ ps, smartLoop data outs = some ps ∧ ps.length = data.length := by
  intro data
  induction data with
  | nil => intro outs h; exact ⟨[], rfl, rfl⟩
  | cons item rest ih =>
    intro outs h
    have hitem : hasAllKeys item = true := h item (by simp)
    have hrest : ∀ it ∈ rest, hasAllKeys it = true := fun it hin => h it (by simp [hin])
    unfold hasAllKeys at hitem
    simp only [Bool.and_eq_true] at hitem
    obtain ⟨⟨⟨⟨h1, h2⟩, h3⟩, h4⟩, h5⟩ := hitem
    rcases ht : lookupKey "TITLE" item with _ | t
    · rw [ht] at h1; cases h1
    rcases hn : lookupKey "NAME" item with _ | n
    · rw [hn] at h2; cases h2
    rcases hl : lookupKey "LAST_NAME" item with _ | l
    · rw [hl] at h3; cases h3
    rcases hph : lookupKey "PHONE" item with _ | p
    · rw [hph] at h4; cases h4
    rcases hem : lookupKey "EMAIL" item with _ | e
    · rw [hem] at h5; cases h5
    have hguard :
        ((lookupKey "TITLE" item).isSome && (lookupKey "LAST_NAME" item).isSome) = true := by
      simp [ht, hl]
    have hpay := lead_payload_of_keys item t n l p e ht hn hl hph hem
    obtain ⟨ps, hps, hlen⟩ := ih outs.tail hrest
    refine ⟨{ TITLE := t,
              NAME := (if truthy n then n else Json.str "Empty name"),
              LAST_NAME := l,
              PHONE := (if truthy p then
                [Json.obj [("VALUE", p), ("VALUE_TYPE", Json.str "HOME")]] else []),
              EMAIL := (if truthy e then
                [Json.obj [("VALUE", e), ("VALUE_TYPE", Json.str "HOME")]] else []) } :: ps,
      ?_, by simp [hlen]⟩
    simp only [smartLoop, hguard, if_true, hpay]
    cases outs.headD .success <;> simp [hps]

/-- Claim C6: for every decoded batch whose rows all carry the five
decoded keys, the importing pipeline attempts one lead-creation call per
row — two fully-valid rows yield exactly two calls — and the calls it
attempts do not depend on the individual call outcomes: no failure
prevents later rows, and nothing is ever rolled back. -/
theorem c6_import_attempts_every_row (data : List (List (String × Json)))
    (outs outs2 : List CallOutcome)
    (h : ∀ item ∈ data, hasAllKeys item = true) :
    create_smart_process data outs = create_smart_process data outs2 ∧
    (create_smart_process data outs).map List.length = some data.length := by
  constructor
  · unfold create_smart_process
    by_cases hd : data.isEmpty
    · simp [hd]
    · simp only [hd, if_neg, Bool.false_eq_true, not_false_eq_true]
      exact smartLoop_outcome_independent data outs outs2
  · unfold create_smart_process
    by_cases hd : data.isEmpty
    · rcases data with _ | ⟨it, rest⟩
      · simp
      · simp [List.isEmpty] at hd
    · obtain ⟨ps, hps, hlen⟩ := smartLoop_all_keys_length data outs h
      simp [hd, hps, hlen]

/-- Witness for C6: the two-row scenario batch yields exactly two
lead-creation calls, for an all-success run and a run with two failing
calls alike. -/
theorem c6_import_attempts_every_row_witness :
    (∀ item ∈ demoRows, hasAllKeys item = true) ∧
    create_smart_process demoRows [CallOutcome.success, CallOutcome.success] =
      create_smart_process demoRows [CallOutcome.httpError, CallOutcome.otherExc] ∧
    (create_smart_process demoRows
      [CallOutcome.success, CallOutcome.success]).map List.length = some 2 := by
  have h : ∀ item ∈ demoRows, hasAllKeys item = true := by decide
  have hc := c6_import_attempts_every_row demoRows
    [CallOutcome.success, CallOutcome.success]
    [CallOutcome.httpError, CallOutcome.otherExc] h
  exact ⟨h, hc.1, hc.2⟩

/-- Claim C7: for every import row carrying the five decoded keys,
`create_smart_process` builds the lead payload mapping a truthy phone
(resp. email) to a single-element contact list whose entry is tagged
with the `HOME` value type, an absent (falsy) one to the empty list,
and an absent (falsy) name to the placeholder `Empty name`. -/
theorem c7_lead_payload_contacts (item : List (String × Json)) (t n l p e : Json)
    (ht : lookupKey "TITLE" item = some t) (hn : lookupKey "NAME" item = some n)
    (hl : lookupKey "LAST_NAME" item = some l) (hp : lookupKey "PHONE" item = some p)
    (he : lookupKey "EMAIL" item = some e) :
    ∃ lead, lead_payload item = some lead ∧
      lead.TITLE = t ∧ lead.LAST_NAME = l ∧
      (truthy p = true → lead.PHONE = [.obj [("VALUE", p), ("VALUE_TYPE", .str "HOME")]]) ∧
      (truthy p = false → lead.PHONE = []) ∧
      (truthy e = true → lead.EMAIL = [.obj [("VALUE", e), ("VALUE_TYPE", .str "HOME")]]) ∧
      (truthy e = false → lead.EMAIL = []) ∧
      (truthy n = true → lead.NAME = n) ∧
      (truthy n = false → lead.NAME = .str "Empty name") := by
  refine ⟨_, lead_payload_of_keys item t n l p e ht hn hl hp he,
    rfl, rfl, ?_, ?_, ?_, ?_, ?_, ?_⟩ <;> intro htr <;> simp [htr]

/-- Witness for C7 at a concrete decoded row with a populated phone and
an empty email cell. -/
theorem c7_lead_payload_contacts_witness :
    lead_payload (rowToItem [.str "Title1", .str "Name1", .str "LastName1",
        .str "Phone1", .null]) =
      some { TITLE := Json.str "Title1", NAME := .str "Name1",
             LAST_NAME := .str "LastName1",
             PHONE := [.obj [("VALUE", .str "Phone1"), ("VALUE_TYPE", .str "HOME")]],
             EMAIL := [] } := by
  obtain ⟨lead, hlead, htit, hlast, hp1, hp0, he1, he0, hn1, hn0⟩ :=
    c7_lead_payload_contacts
      (rowToItem [.str "Title1", .str "Name1", .str "LastName1", .str "Phone1", .null])
      (.str "Title1") (.str "Name1") (.str "LastName1") (.str "Phone1") .null
      rfl rfl rfl rfl rfl
  have hph := hp1 rfl
  have hem := he0 rfl
  have hnm := hn1 rfl
  obtain ⟨lt, ln, ll, lp, le⟩ := lead
  simp only at htit hlast hph hem hnm
  subst htit hlast hph hem hnm
  exact hlead

/-- In a successfully written data row, the phone and email columns
hold the values computed by `contactCell`. -/
theorem saveResultObj_saved_cols {rf : List (String × Json)} {r : List Json}
    (h : saveResultObj rf = .saved r) :
    contactCell ((lookupKey "PHONE" rf).getD (.arr [])) = some (r.getD 3 .null) ∧
    contactCell ((lookupKey "EMAIL" rf).getD (.arr [])) = some (r.getD 4 .null) := by
  unfold saveResultObj at h
  by_cases h1 : excelCellOk ((lookupKey "ID" rf).getD (Json.str "N/A")) = false
  · simp [h1] at h
  rw [if_neg h1] at h
  by_cases h2 : excelCellOk ((lookupKey "NAME" rf).getD (Json.str "N/A")) = false
  · simp [h2] at h
  rw [if_neg h2] at h
  by_cases h3 : excelCellOk ((lookupKey "LAST_NAME" rf).getD (Json.str "N/A")) = false
  · simp [h3] at h
  rw [if_neg h3] at h
  rcases hpc : contactCell ((lookupKey "PHONE" rf).getD (Json.arr [])) with _ | pc
  · simp [hpc] at h
  simp only [hpc] at h
  by_cases h4 : excelCellOk pc = false
  · simp [h4] at h
  rw [if_neg h4] at h
  rcases hec : contactCell ((lookupKey "EMAIL" rf).getD (Json.arr [])) with _ | ec
  · simp [hec] at h
  simp only [hec] at h
  by_cases h5 : excelCellOk ec = false
  · simp [h5] at h
  rw [if_neg h5] at h
  rcases hdc : lookupKey "DATE_CREATE" rf with _ | dv
  · simp only [hdc] at h
    cases h
    exact ⟨rfl, rfl⟩
  simp only [hdc] at h
  rcases dv with _ | sv | nv | xs | fs2
  · simp at h
  · rcases hp2 : parseDateCreate sv with _ | ⟨d, mo, y⟩
    · simp [hp2] at h
    · simp only [hp2] at h
      cases h
      exact ⟨rfl, rfl⟩
  · simp at h
  · simp at h
  · simp at h

/-- Claim C1: the specification's export scenario encodes to exactly
the expected data row; and for every fetched payload whose encoding
succeeds, a non-empty phone (resp. email) list puts the first entry's
`VALUE` in the phone (resp. email) column, while an empty or absent
list puts the `"N/A"` marker there. -/
theorem c1_encode_row_and_contacts :
    save_candidate_to_excel (.obj [("result", .obj scenarioResult)]) =
      .saved scenarioRow ∧
    (∀ fs rf r, lookupKey "result" fs = some (.obj rf) →
      save_candidate_to_excel (.obj fs) = .saved r →
      ((∀ ps rest v, lookupKey "PHONE" rf = some (.arr (.obj ps :: rest)) →
          lookupKey "VALUE" ps = some v → r.getD 3 .null = v) ∧
       ((lookupKey "PHONE" rf = none ∨ lookupKey "PHONE" rf = some (.arr [])) →
          r.getD 3 .null = .str "N/A") ∧
       (∀ ps rest v, lookupKey "EMAIL" rf = some (.arr (.obj ps :: rest)) →
          lookupKey "VALUE" ps = some v → r.getD 4 .null = v) ∧
       ((lookupKey "EMAIL" rf = none ∨ lookupKey "EMAIL" rf = some (.arr [])) →
          r.getD 4 .null = .str "N/A"))) := by
  constructor
  · rfl
  · intro fs rf r hres hsave
    have hobj : saveResultObj rf = .saved r := by
      simpa [save_candidate_to_excel, hres] using hsave
    obtain ⟨hph, hem⟩ := saveResultObj_saved_cols hobj
    refine ⟨?_, ?_, ?_, ?_⟩
    · intro ps rest v hp hv
      rw [hp, Option.getD_some, contactCell_first_value, hv] at hph
      exact (Option.some.inj hph).symm
    · intro hcase
      rcases hcase with hc | hc
      · rw [hc, Option.getD_none, contactCell_empty] at hph
        exact (Option.some.inj hph).symm
      · rw [hc, Option.getD_some, contactCell_empty] at hph
        exact (Option.some.inj hph).symm
    · intro ps rest v hp hv
      rw [hp, Option.getD_some, contactCell_first_value, hv] at hem
      exact (Option.some.inj hem).symm
    · intro hcase
      rcases hcase with hc | hc
      · rw [hc, Option.getD_none, contactCell_empty] at hem
        exact (Option.some.inj hem).symm
      · rw [hc, Option.getD_some, contactCell_empty] at hem
        exact (Option.some.inj hem).symm

/-- Witness for C1 at the scenario payload: the row is written and its
phone and email columns hold the first list entries. -/
theorem c1_encode_row_and_contacts_witness :
    save_candidate_to_excel (.obj [("result", .obj scenarioResult)]) =
      .saved scenarioRow ∧
    scenarioRow.getD 3 .null = .str "+7999..." ∧
    scenarioRow.getD 4 .null = .str "ivanov@example.com" := by
  have h := c1_encode_row_and_contacts
  have hmain := h.2 [("result", .obj scenarioResult)] scenarioResult scenarioRow rfl h.1
  exact ⟨h.1,
    hmain.1 [("VALUE", .str "+7999...")] [] (.str "+7999...") rfl rfl,
    hmain.2.2.1 [("VALUE", .str "ivanov@example.com")] [] (.str "ivanov@example.com")
      rfl rfl⟩

/-- Claim C5 counterexample: a well-formed JSON body lacking the result
payload is returned unchanged by `get_candidate_data`: no
error-classified failure value of any kind is produced. -/
theorem c5_counterexample :
    get_candidate_data (.ok (Json.obj [])) = Json.obj [] ∧
    lookupKey "result" ([] : List (String × Json)) = none ∧
    hasErrorKey (get_candidate_data (.ok (Json.obj []))) = false :=
  ⟨rfl, rfl, rfl⟩

/-- Claim C5 (amended): `get_candidate_data` returns a decodable body
unchanged even when it lacks the result payload; the missing-result
condition is detected downstream by `save_candidate_to_excel`, which
returns the distinct no-data outcome (not a raised fault), while every
failing request outcome — transport/connection failure, timeout,
non-2xx status, malformed body — is classified by `get_candidate_data`
itself as an error-keyed dict. -/
theorem c5_amended_missing_result_downstream (body : Json)
    (fs : List (String × Json)) (o : RequestOutcome)
    (hres : lookupKey "result" fs = none) (ho : fetchFailed o = true) :
    get_candidate_data (.ok body) = body ∧
    save_candidate_to_excel (.obj fs) = SaveOutcome.noData ∧
    hasErrorKey (get_candidate_data o) = true := by
  refine ⟨rfl, ?_, ?_⟩
  · simp [save_candidate_to_excel, hres]
  · cases o with
    | ok b => simp [fetchFailed] at ho
    | badJson t => rfl
    | httpError m st => rfl
    | connError => rfl
    | timeout => rfl
    | reqError m => rfl
    | otherExc m => rfl

/-- Witness for the amended C5: a body holding only an `ID` key and a
timed-out request. -/
theorem c5_amended_missing_result_downstream_witness :
    get_candidate_data (.ok (Json.obj [("ID", Json.num 1)])) =
      Json.obj [("ID", Json.num 1)] ∧
    save_candidate_to_excel (.obj [("ID", Json.num 1)]) = SaveOutcome.noData ∧
    hasErrorKey (get_candidate_data .timeout) = true :=
  c5_amended_missing_result_downstream _ _ _ rfl rfl

/-- Claim C4 counterexample: after a failing fetch (a connection
error), the run does not abort: with the field creation returning id
42, two CRM mutations are performed (the user-field creation request
and the link attach), even though no file was written. -/
theorem c4_counterexample :
    fetchFailed .connError = true ∧
    (main_candidate_data .connError (some 42)).countP (fun e => isCrmMutation e) = 2 ∧
    (main_candidate_data .connError (some 42)).countP (fun e => isFileWrite e) = 0 :=
  ⟨rfl, by decide, by decide⟩

/-- A failed encoding writes no file. -/
theorem saveEvents_eq_nil_of_saveFails {j : Json}
    (h : saveFails (save_candidate_to_excel j) = true) : saveEvents j = [] := by
  unfold saveEvents
  rcases hs : save_candidate_to_excel j with _ | row | _ | _
  · simp [hs]
  · rw [hs] at h; simp [saveFails] at h
  · simp [hs]
  · simp [hs]

/-- The attach step never writes a file. -/
theorem fileWrite_not_mem_attachEvents (row : List Json) (fieldId : Option Int) :
    ExportEvent.fileWrite row ∉ attachEvents fieldId := by
  rcases fieldId with _ | fid
  · simp [attachEvents]
  · by_cases hfid : (fid != 0) = true
    · simp [attachEvents, hfid]
    · simp [attachEvents, hfid]

/-- Claim C4 (amended): when the fetch step fails, no spreadsheet file
is written (the encoder returns its no-data outcome), and likewise no
file is written whenever the encoder fails; but the run does not abort
before CRM field mutations: the user-field creation request is issued
unconditionally on every run. -/
theorem c4_amended_no_file_but_no_abort (fetch : RequestOutcome) (fieldId : Option Int) :
    (fetchFailed fetch = true →
      saveFails (save_candidate_to_excel (get_candidate_data fetch)) = true) ∧
    (saveFails (save_candidate_to_excel (get_candidate_data fetch)) = true →
      ∀ row, ExportEvent.fileWrite row ∉ main_candidate_data fetch fieldId) ∧
    ExportEvent.fieldCreateRequest (upload_file_to_lead_payload exportFileName) ∈
      main_candidate_data fetch fieldId := by
  refine ⟨?_, ?_, ?_⟩
  · intro hf
    cases fetch with
    | ok body => simp [fetchFailed] at hf
    | badJson t => rfl
    | httpError m st => rfl
    | connError => rfl
    | timeout => rfl
    | reqError m => rfl
    | otherExc m => rfl
  · intro hsf row
    have hnil := saveEvents_eq_nil_of_saveFails hsf
    unfold main_candidate_data
    rw [hnil]
    intro hmem
    simp only [List.nil_append, List.mem_append, List.mem_singleton] at hmem
    rcases hmem with hmem | hmem
    · cases hmem
    · exact fileWrite_not_mem_attachEvents row fieldId hmem
  · unfold main_candidate_data
    simp [List.mem_append]

/-- Witness for the amended C4: the connection-error run with field id
42 writes no file yet issues the field-creation request. -/
theorem c4_amended_no_file_but_no_abort_witness :
    saveFails (save_candidate_to_excel (get_candidate_data .connError)) = true ∧
    ExportEvent.fileWrite [] ∉ main_candidate_data .connError (some 42) ∧
    ExportEvent.fieldCreateRequest (upload_file_to_lead_payload exportFileName) ∈
      main_candidate_data .connError (some 42) := by
  have hc := c4_amended_no_file_but_no_abort .connError (some 42)
  exact ⟨hc.1 rfl, hc.2.1 (hc.1 rfl) [], hc.2.2⟩

end Bitrix24
